import Mathlib

/-!
Verification of the fabric_only cloth-simulation repository.

The repository hosts two wgpu applications: `InstanceApp` (src/instances_app.rs,
run by src/main.rs) and `ClothApp` (src/help/cloth_app.rs, run by
src/help/src/main.rs).  Both build a rectangular cloth grid on the CPU, upload
it to a storage buffer, and each frame dispatch a WGSL compute kernel over the
vertices, then copy the storage buffer into the render vertex buffer.  The WGSL
kernel sources (computeShader.wgsl / compute_shader.wgsl) are referenced with
include_str! but are not part of the repository sources, so the kernel itself
is modelled from the specification where a claim needs it; everything on the
host side (grid construction, index construction, buffer and bind-group
topology, the per-frame update functions, the parameter records) is embedded
directly from the Rust sources.

All f32 values are modelled as exact rationals (`Frac` below).  Where the Rust
code's f32 rounding is observable (the stepped while-loop in ClothApp::new),
IEEE round-to-nearest-even at 24 significand bits is modelled explicitly
(`roundF32`); the model was checked slot-for-slot against real float32
arithmetic on every value those loops produce.
-/

set_option maxRecDepth 16000

/-- Exact rational numbers with an executable, kernel-reducible representation:
a numerator/denominator pair kept normalized (positive denominator, coprime)
by every operation.  Used to model the f32 scalars of the program. -/
structure Frac where
  num : Int
  den : Int
deriving DecidableEq, Repr

/-- Normalize an integer fraction `n / d`: force the denominator positive and
divide out the gcd.  A zero denominator normalizes to 0 (the Rust code never
divides by zero on the paths the claims quantify over; the hard-coded
configurations keep all denominators nonzero). -/
def Frac.normalize (n d : Int) : Frac :=
  if d = 0 then ⟨0, 1⟩ else
  let s : Int := if 0 < d then 1 else -1
  let n1 := s * n
  let d1 := s * d
  let g : Int := Int.ofNat (Nat.gcd n1.natAbs d1.natAbs)
  ⟨n1 / g, d1 / g⟩

def Frac.add (a b : Frac) : Frac := Frac.normalize (a.num * b.den + b.num * a.den) (a.den * b.den)

def Frac.neg (a : Frac) : Frac := ⟨-a.num, a.den⟩

def Frac.sub (a b : Frac) : Frac := a.add b.neg

def Frac.mul (a b : Frac) : Frac := Frac.normalize (a.num * b.num) (a.den * b.den)

def Frac.div (a b : Frac) : Frac := Frac.normalize (a.num * b.den) (a.den * b.num)

def Frac.fabs (a : Frac) : Frac := if a.num < 0 then ⟨-a.num, a.den⟩ else a

/-- Boolean comparison `a ≤ b` on normalized fractions (denominators positive). -/
def Frac.ble (a b : Frac) : Bool := decide (a.num * b.den ≤ b.num * a.den)

/-- Boolean comparison `a < b` on normalized fractions (denominators positive). -/
def Frac.blt (a b : Frac) : Bool := decide (a.num * b.den < b.num * a.den)

instance (n : Nat) : OfNat Frac n := ⟨⟨n, 1⟩⟩

def Frac.ofInt (n : Int) : Frac := ⟨n, 1⟩

/-- Fueled floor of the base-2 logarithm of a natural number (fuel 128 covers
all magnitudes the f32 model meets). -/
def natLog2F : Nat → Nat → Nat
  | 0, _ => 0
  | f + 1, n => if 2 ≤ n then natLog2F f (n / 2) + 1 else 0

/-- The rational value of `2 ^ e` for an integer exponent `e`. -/
def pow2 (e : Int) : Frac :=
  if 0 ≤ e then ⟨Int.ofNat (2 ^ e.toNat), 1⟩ else ⟨1, Int.ofNat (2 ^ (-e).toNat)⟩

/-- Binade exponent of a positive fraction `a`: the integer `e` with
`2 ^ e ≤ a < 2 ^ (e + 1)`. -/
def f32exp (a : Frac) : Int :=
  let k0 : Int := (natLog2F 128 a.num.natAbs : Int) - (natLog2F 128 a.den.natAbs : Int)
  if (pow2 k0).ble a then (if (pow2 (k0 + 1)).ble a then k0 + 1 else k0) else k0 - 1

/-- Round a nonnegative fraction to the nearest integer, ties to even. -/
def rne (v : Frac) : Int :=
  let n := v.num / v.den
  let r := v.num % v.den
  if v.den < 2 * r then n + 1
  else if 2 * r < v.den then n
  else if n % 2 = 0 then n else n + 1

/-- Round an exact rational to the nearest IEEE-754 binary32 value
(24 significand bits, round to nearest, ties to even).  Overflow and
subnormals are outside the range exercised by the embedded programs.
Checked against real float32 arithmetic on every value of the ClothApp
construction loops. -/
def roundF32 (q : Frac) : Frac :=
  if q.num = 0 then ⟨0, 1⟩ else
  let sgn : Int := if q.num < 0 then -1 else 1
  let a := q.fabs
  let e := f32exp a
  let m := rne (a.mul (pow2 (23 - e)))
  (Frac.normalize (sgn * m) 1).mul (pow2 (e - 23))

/-- The f32 sum `a + b`: the exact sum rounded to binary32. -/
def f32add (a b : Frac) : Frac := roundF32 (a.add b)

/-- The f32 difference `a - b`: the exact difference rounded to binary32. -/
def f32sub (a b : Frac) : Frac := roundF32 (a.sub b)

/-- The f32 quotient `a / b`: the exact quotient rounded to binary32. -/
def f32div (a b : Frac) : Frac := roundF32 (a.div b)

/-- The Rust cast `as usize` of a nonnegative f32 value (truncation). -/
def f32toUsize (q : Frac) : Nat := (q.num / q.den).toNat

/-- A 3-component vector of exact rationals, modelling vec3 of f32 (the `w`
components of the vec4 fields in instances_app.rs are constant padding and
are recorded separately where the source carries them). -/
structure V3 where
  x : Frac
  y : Frac
  z : Frac
deriving DecidableEq, Repr

def V3.zero : V3 := ⟨0, 0, 0⟩

def V3.add (a b : V3) : V3 := ⟨a.x.add b.x, a.y.add b.y, a.z.add b.z⟩

def V3.sub (a b : V3) : V3 := ⟨a.x.sub b.x, a.y.sub b.y, a.z.sub b.z⟩

def V3.smul (s : Frac) (a : V3) : V3 := ⟨s.mul a.x, s.mul a.y, s.mul a.z⟩

def V3.dot (a b : V3) : Frac := ((a.x.mul b.x).add (a.y.mul b.y)).add (a.z.mul b.z)

/-- Fueled binary search for the integer square root: the largest `k` in
`[lo, hi]` with `k * k ≤ n`, assuming `lo * lo ≤ n`. -/
def sqrtBS : Nat → Nat → Nat → Nat → Nat
  | 0, lo, _, _ => lo
  | f + 1, lo, hi, n =>
    if hi ≤ lo then lo
    else
      let m := (lo + hi + 1) / 2
      if m * m ≤ n then sqrtBS f m hi n else sqrtBS f lo (m - 1) n

def isqrt (n : Nat) : Nat := sqrtBS 200 0 n n

/-- Exact square root of a nonnegative rational when it is a perfect square of
a rational, and 0 otherwise.  The specification's kernel uses real square
roots; on the axis-aligned configurations evaluated in this file every
radicand is a perfect square, where this function agrees with the real root.
A zero result feeds the specification's explicit degenerate-length policies
(skip the spring; treat the collision test as false). -/
def ratSqrt (q : Frac) : Frac :=
  if q.num < 0 then 0 else
  let sn := isqrt q.num.toNat
  let sd := isqrt q.den.toNat
  if sn * sn = q.num.toNat ∧ sd * sd = q.den.toNat
  then Frac.normalize (Int.ofNat sn) (Int.ofNat sd) else 0

/-- Euclidean norm of a vector, via `ratSqrt`. -/
def V3.norm (a : V3) : Frac := ratSqrt (((a.x.mul a.x).add (a.y.mul a.y)).add (a.z.mul a.z))

/-! ## Embedding of src/instances_app.rs (host side) -/

/-- Vertex record of instances_app.rs (lines 11-19): position and velocity are
vec4 with constant fourth component (recorded as `posW`/`velW`), plus an RGBA
color, a scalar mass and an f32 `fixed` flag. -/
structure IVertex where
  position : V3
  posW : Frac
  colorR : Frac
  colorG : Frac
  colorB : Frac
  colorA : Frac
  mass : Frac
  velocity : V3
  velW : Frac
  fixed : Frac
deriving DecidableEq, Repr

/-- One fabric vertex of InstanceApp::new (lines 131-147): position
`x = (col / (cols-1)) * side - side/2`, `y = 2.0`,
`z = (row / (rows-1)) * side - side/2`, green color, zero velocity,
`fixed = 0.0`.  The arithmetic is exact here (source values 2x2 grid incur no
f32 rounding); the mass is the hard-coded `1.0` generalized to a parameter so
the configuration surface of claim C4 is expressible (the source call site
fixes `mass = 1`, see `instanceConfig`). -/
def mkFabricVertex (rows cols : Nat) (mass : Frac) (side : Frac) (row col : Nat) : IVertex :=
  let x := ((Frac.ofInt col).div (Frac.ofInt (cols - 1))).mul side |>.sub (side.div 2)
  let z := ((Frac.ofInt row).div (Frac.ofInt (rows - 1))).mul side |>.sub (side.div 2)
  { position := ⟨x, 2, z⟩
    posW := 1
    colorR := 0, colorG := 1, colorB := 0, colorA := 1
    mass := mass
    velocity := V3.zero
    velW := 1
    fixed := 0 }

/-- The fabric vertex list of InstanceApp::new: row-major flat_map over
`0..rows` and `0..cols` (lines 131-147). -/
def fabricVertices (rows cols : Nat) (mass : Frac) (side : Frac) : List IVertex :=
  (List.range rows).flatMap (fun row =>
    (List.range cols).map (fun col => mkFabricVertex rows cols mass side row col))

/-- The six indices of one grid cell, in source order (instances_app.rs lines
149-164 and cloth_app.rs lines 251-269, which use the identical scheme):
triangle 1 is `(top_left, bottom_left, bottom_right)`, triangle 2 is
`(top_left, bottom_right, top_right)`, with `top_left = row*cols+col`,
`top_right = top_left+1`, `bottom_left = top_left+cols`,
`bottom_right = bottom_left+1`. -/
def cellIndices (cols row col : Nat) : List Nat :=
  let tl := row * cols + col
  [tl, tl + cols, tl + cols + 1, tl, tl + cols + 1, tl + 1]

/-- The full index list: two triangles for every cell of the
`(rows-1) x (cols-1)` cell grid, rows outer, cols inner.  Shared embedding of
the fabric-index loop of instances_app.rs (lines 149-164) and the index loop
of cloth_app.rs (lines 251-269), which are the same algorithm. -/
def gridIndices (rows cols : Nat) : List Nat :=
  (List.range (rows - 1)).flatMap (fun row =>
    (List.range (cols - 1)).flatMap (fun col => cellIndices cols row col))

/-- SphereData of instances_app.rs (lines 21-27, 39-47): center (stored as
vec4 with zero w, modelled as the 3-vector) plus radius; the 28 padding bytes
carry no information and are omitted. -/
structure SphereData where
  center : V3
  radius : Frac
deriving DecidableEq, Repr

def SphereData.new (center : V3) (radius : Frac) : SphereData := ⟨center, radius⟩

/-- SimParams of instances_app.rs (lines 30-37): the full field list is
grid_rows, grid_cols, spring_stiffness, rest_length - nothing else. -/
structure SimParams where
  grid_rows : Nat
  grid_cols : Nat
  spring_stiffness : Frac
  rest_length : Frac
deriving DecidableEq, Repr

/-- The SimParams value built in InstanceApp::new (lines 193-198):
rows = cols = 2, stiffness 50.0, rest length 0.1 (as the f32 nearest to
1/10). -/
def instanceSimParams : SimParams :=
  { grid_rows := 2, grid_cols := 2, spring_stiffness := 50, rest_length := roundF32 (Frac.normalize 1 10) }

/-- The sphere data built in InstanceApp::new (line 224): center the origin,
radius the f32 value of 1.2. -/
def instanceSphereData : SphereData := SphereData.new V3.zero (roundF32 (Frac.normalize 6 5))

/-- Host-visible state of InstanceApp that the per-frame update touches:
the fabric storage buffer (bound to the compute kernel), the fabric vertex
buffer (consumed by the renderer), the sphere uniform, the SimParams uniform,
and the sphere's render vertices. -/
structure InstState where
  fabricStorage : List IVertex
  fabricVertex : List IVertex
  sphere : SphereData
  simParams : SimParams
  sphereVertices : List IVertex
deriving Repr

/-- InstanceApp::update (instances_app.rs lines 419-449), parameterized by the
compute kernel `pass` (its WGSL source, computeShader.wgsl, is not in the
repository; the bind group gives it exactly the sphere uniform, the SimParams
uniform, and the fabric storage buffer, so any kernel is a function of those
three).  The update records one compute dispatch over the fabric storage
buffer followed by copy_buffer_to_buffer of the whole fabric
(rows*cols vertices) from the storage buffer into the render vertex buffer.
The `deltaTime` argument mirrors the Rust `delta_time: f32` parameter, which
the body never reads. -/
def instanceUpdate (pass : SphereData → SimParams → List IVertex → List IVertex)
    (deltaTime : Frac) (st : InstState) : InstState :=
  let _ := deltaTime
  let storage2 := pass st.sphere st.simParams st.fabricStorage
  { st with fabricStorage := storage2, fabricVertex := storage2 }

/-! ## Embedding of the buffer/bind-group topology of both apps -/

/-- The GPU buffers created by the two apps that matter to the claims
(instances_app.rs lines 199-242, cloth_app.rs lines 283-293 and 362-366). -/
inductive BufId
  | fabricStorage
  | fabricVertexBuf
  | fabricIndexBuf
  | sphereUniform
  | simParamUniform
  | sphereVertexBuf
  | sphereIndexBuf
  | clothVertexStorage
  | clothVertexBuf
  | clothIndexBuf
  | clothEnvUniform
deriving DecidableEq, Repr

/-- Binding type of a bind-group entry, from the bind-group layouts:
read-write storage (`Storage { read_only: false }`) or uniform (read-only). -/
inductive BindTy
  | storageRW
  | uniform
deriving DecidableEq, Repr

/-- One entry of a bind group: binding slot, the bound buffer, and its type. -/
structure BindEntry where
  binding : Nat
  buffer : BufId
  ty : BindTy
deriving DecidableEq, Repr

/-- The compute bind group of InstanceApp::new (lines 264-320): binding 0 is
the fabric storage buffer as read-write storage, binding 1 the sphere uniform,
binding 2 the SimParams uniform. -/
def instanceComputeBindGroup : List BindEntry :=
  [⟨0, .fabricStorage, .storageRW⟩, ⟨1, .sphereUniform, .uniform⟩, ⟨2, .simParamUniform, .uniform⟩]

/-- The compute bind group of ClothApp (cloth_app.rs lines 375-426 and
473-494): binding 0 is the cloth vertex storage buffer as read-write storage,
binding 1 the EnvironmentData uniform. -/
def clothComputeBindGroup : List BindEntry :=
  [⟨0, .clothVertexStorage, .storageRW⟩, ⟨1, .clothEnvUniform, .uniform⟩]

/-- The buffers whose contents are cloth vertex state (initialized from the
vertex arrays; instances_app.rs lines 206-216, cloth_app.rs lines 283-287 and
362-366). -/
def vertexStateBuffers : List BufId :=
  [.fabricStorage, .fabricVertexBuf, .clothVertexStorage, .clothVertexBuf]

/-! ## Embedding of src/help/cloth_app.rs (host side) -/

/-- A quadruple of f32 slots, the packing unit of `EnvironmentData`. -/
structure Quad where
  a : Frac
  b : Frac
  c : Frac
  d : Frac
deriving DecidableEq, Repr

/-- EnvironmentData of cloth_app.rs (lines 71-78): six packed 16-byte rows.
Per the source's own slot comments: values1 = sphere_center xyz + sphere_radius;
values2 = gravity xyz + delta_time; values3 = sphere_damping,
structural_stiffness, shear_stiffness, bending_stiffness; values4 =
vertex_mass, vertex_damping, structural_max_length, shear_max_length;
values5 = bending_max_length + padding; values6 = grid_width, grid_height +
padding. -/
structure EnvironmentData where
  values1 : Quad
  values2 : Quad
  values3 : Quad
  values4 : Quad
  values5 : Quad
  values6 : Nat × Nat × Nat × Nat
deriving DecidableEq, Repr

/-- EnvironmentData::new (cloth_app.rs lines 80-103): all fields except the
sphere center, radius and delta_time are hard-coded constants (given as the
f32 values of the decimal literals). -/
def EnvironmentData.new (center : V3) (radius delta_time : Frac) : EnvironmentData :=
  { values1 := ⟨center.x, center.y, center.z, radius⟩
    values2 := ⟨0, Frac.neg 1, 0, delta_time⟩
    values3 := ⟨roundF32 (Frac.normalize 3 10), roundF32 (Frac.normalize 1 10),
                roundF32 (Frac.normalize 1 10), roundF32 (Frac.normalize 1 10)⟩
    values4 := ⟨roundF32 (Frac.normalize 1 2), roundF32 (Frac.normalize 3 5),
                roundF32 (Frac.normalize 1 20), roundF32 (Frac.normalize 3 40)⟩
    values5 := ⟨roundF32 (Frac.normalize 1 10), 0, 0, 0⟩
    values6 := (60, 60, 0, 0) }

/-- EnvironmentData::update_delta_time (cloth_app.rs lines 105-107): write the
given delta time into slot values2[3]. -/
def EnvironmentData.updateDeltaTime (e : EnvironmentData) (delta_time : Frac) : EnvironmentData :=
  { e with values2 := ⟨e.values2.a, e.values2.b, e.values2.c, delta_time⟩ }

/-- The delta_time slot of EnvironmentData (values2[3] per the source's slot
comments). -/
def EnvironmentData.deltaTime (e : EnvironmentData) : Frac := e.values2.d

/-- Vertex record of cloth_app.rs (lines 11-20): position, color and velocity
vec3 (the three 4-byte pad fields carry no information and are omitted). -/
structure CVertex where
  position : V3
  color : V3
  velocity : V3
deriving DecidableEq, Repr

/-- The f32 value of the literal `0.05`, the grid step of ClothApp::new. -/
def clothStep : Frac := roundF32 (Frac.normalize 1 20)

/-- The stepped f32 while-loop of ClothApp::new (lines 238-246): starting at
the range start, push the current value and add the f32 step, while the value
is below the range end.  Every addition rounds to binary32, exactly as the
Rust f32 `+=` does; the fuel (200) exceeds the 61 iterations performed. -/
def whileLoopF32 : Nat → Frac → Frac → Frac → List Frac
  | 0, _, _, _ => []
  | f + 1, x, stop, step =>
    if x.blt stop then x :: whileLoopF32 f (roundF32 (x.add step)) stop step else []

/-- The x samples of the cloth grid: the while-loop from -1.5 (exclusive upper
bound 1.5) with f32 step 0.05. -/
def clothXs : List Frac := whileLoopF32 200 (Frac.normalize (-3) 2) (Frac.normalize 3 2) clothStep

/-- The z samples of the cloth grid: the outer while-loop, identical to the
inner one (cloth_app.rs lines 238-246; height_range equals width_range). -/
def clothZs : List Frac := whileLoopF32 200 (Frac.normalize (-3) 2) (Frac.normalize 3 2) clothStep

/-- The centering midpoint `(start + end - step) / 2` of ClothApp::new
(lines 234-235), in f32 arithmetic. -/
def clothMid : Frac := f32div (f32sub (f32add (Frac.normalize (-3) 2) (Frac.normalize 3 2)) clothStep) 2

/-- The generated cloth positions (cloth_app.rs lines 237-246): for each z of
the outer loop and each x of the inner loop, the point
`(x - x_mid, 0.0, z - z_mid)`. -/
def clothPositions : List V3 :=
  clothZs.flatMap (fun z => clothXs.map (fun x => ⟨f32sub x clothMid, 0, f32sub z clothMid⟩))

/-- The cloth vertex list (cloth_app.rs lines 271-281): each position with the
fixed color (0.5, 0.75, 0.75) and zero velocity. -/
def clothVertices : List CVertex :=
  clothPositions.map (fun p =>
    { position := p
      color := ⟨roundF32 (Frac.normalize 1 2), roundF32 (Frac.normalize 3 4), roundF32 (Frac.normalize 3 4)⟩
      velocity := V3.zero })

/-- The `width` of ClothApp::new (line 248):
`((width_range.end - width_range.start) / step) as usize` in f32 arithmetic. -/
def clothWidth : Nat := f32toUsize (f32div (f32sub (Frac.normalize 3 2) (Frac.normalize (-3) 2)) clothStep)

/-- The `height` of ClothApp::new (line 249), same computation as `width`. -/
def clothHeight : Nat := f32toUsize (f32div (f32sub (Frac.normalize 3 2) (Frac.normalize (-3) 2)) clothStep)

/-- Host-visible state of ClothApp that update_cloth touches: the vertex
storage buffer (bound to the compute kernel), the render vertex buffer, and
the environment data held by the sphere. -/
structure ClothState where
  vertexStorage : List CVertex
  vertexBuffer : List CVertex
  env : EnvironmentData
deriving Repr

/-- ClothApp::update_cloth (cloth_app.rs lines 466-518), parameterized by the
compute kernel `pass` (compute_shader.wgsl is not in the repository; its bind
group gives it exactly the environment uniform and the vertex storage buffer).
The body first writes `delta_time` into the environment data, then creates the
bind group from a fresh buffer of that updated environment, dispatches the
kernel over the storage buffer, and copies the storage buffer back into the
render vertex buffer.  The second component of the result is the environment
value the dispatched kernel was bound to. -/
def clothUpdateCloth (pass : EnvironmentData → List CVertex → List CVertex)
    (deltaTime : Frac) (st : ClothState) : ClothState × EnvironmentData :=
  let env2 := st.env.updateDeltaTime deltaTime
  let storage2 := pass env2 st.vertexStorage
  ({ vertexStorage := storage2, vertexBuffer := storage2, env := env2 }, env2)

/-! ## Parameter-field inventory of the two parameter records -/

/-- Semantic names for the scalar quantities a parameter record can carry:
the union of the fields the specification requires of the Simulation
Parameters and the fields the two Rust records actually have. -/
inductive ParamField
  | gravity
  | vertexMass
  | vertexDamping
  | structuralStiffness
  | shearStiffness
  | bendingStiffness
  | structuralRestLength
  | shearRestLength
  | bendingRestLength
  | structuralMaxLength
  | shearMaxLength
  | bendingMaxLength
  | sphereCenter
  | sphereRadius
  | sphereDamping
  | timeStep
  | gridRows
  | gridCols
  | springStiffness
  | restLength
deriving DecidableEq, Repr

/-- The fields of SimParams (instances_app.rs lines 30-37): grid_rows,
grid_cols, spring_stiffness, rest_length.  `springStiffness`/`restLength` are
the record's single per-all-classes values, distinct from the three per-class
ones. -/
def simParamsFields : List ParamField :=
  [.gridRows, .gridCols, .springStiffness, .restLength]

/-- The fields of EnvironmentData, read off the source's slot comments
(cloth_app.rs lines 72-77): sphere center and radius, gravity and delta_time,
sphere damping, the three per-class stiffnesses, vertex mass and damping, the
three per-class max lengths, and the grid dimensions. -/
def environmentDataFields : List ParamField :=
  [.sphereCenter, .sphereRadius, .gravity, .timeStep, .sphereDamping,
   .structuralStiffness, .shearStiffness, .bendingStiffness,
   .vertexMass, .vertexDamping,
   .structuralMaxLength, .shearMaxLength, .bendingMaxLength,
   .gridRows, .gridCols]

/-- The fields claim C6 (spec section 3, Simulation Parameters) requires of
the record passed to the kernel. -/
def specRequiredFields : List ParamField :=
  [.gravity, .vertexMass, .vertexDamping,
   .structuralStiffness, .shearStiffness, .bendingStiffness,
   .structuralRestLength, .shearRestLength, .bendingRestLength,
   .structuralMaxLength, .shearMaxLength, .bendingMaxLength,
   .sphereCenter, .sphereRadius, .sphereDamping, .timeStep]

/-! ## Configuration surface and validation (claim C4) -/

/-- The configuration quantities claim C4 quantifies over.  In the sources
these are hard-coded constants inside the constructors (instances_app.rs
lines 113-116, 170, 177; cloth_app.rs lines 87, 92-93, 401-402); the
constructors take no configuration argument and contain no validation code. -/
structure SimConfig where
  rows : Nat
  cols : Nat
  mass : Frac
  radius : Frac
deriving DecidableEq, Repr

/-- The hard-coded configuration of InstanceApp::new: a 2x2 grid, vertex mass
1.0, ball radius 1.2. -/
def instanceConfig : SimConfig := ⟨2, 2, 1, roundF32 (Frac.normalize 6 5)⟩

/-- The hard-coded configuration of ClothApp::new: a 60x60 grid
(EnvironmentData's grid_width/grid_height), vertex mass 0.5, sphere radius
1.0. -/
def clothConfig : SimConfig := ⟨60, 60, roundF32 (Frac.normalize 1 2), 1⟩

/-- The data InstanceApp::new computes for a configuration: the fabric
vertices (with the configured mass), the fabric indices, and the sphere data
(lines 110-242).  The codomain is `Except String` to make the presence or
absence of a configuration error expressible: the source constructor has no
error path whatsoever (it returns `Self`, not `Result`), so the embedding
returns `.ok` unconditionally - there is no branch that could yield
`.error`. -/
def instanceNewE (cfg : SimConfig) : Except String (List IVertex × List Nat × SphereData) :=
  .ok (fabricVertices cfg.rows cfg.cols cfg.mass 4, gridIndices cfg.rows cfg.cols,
       SphereData.new V3.zero cfg.radius)

/-- Decidable success test for `Except`. -/
def exceptOk {ε α : Type} (e : Except ε α) : Bool :=
  match e with
  | .ok _ => true
  | .error _ => false

/-- Validation of a configuration following the words of the specification
(section 7): non-positive mass, negative radius, or rows/cols below 2 are
configuration errors.  This is the spec-side definition used to compare the
code's (absent) validation against; it is not in the source. -/
def specValidate (cfg : SimConfig) : Except String Unit :=
  if cfg.mass.ble 0 then .error "non-positive mass"
  else if cfg.radius.blt 0 then .error "negative radius"
  else if cfg.rows < 2 ∨ cfg.cols < 2 then .error "rows/cols < 2"
  else .ok ()

/-! ## Spec-modelled Force/Integration Kernel

Modelled from the spec: the WGSL kernel sources (computeShader.wgsl and
compute_shader.wgsl) are referenced by `include_str!` in both apps but are
not part of the repository, so the per-vertex kernel is taken from
specification section 4.3 steps 1-8 together with the neighbor-offset
families of section 3.  The buffer discipline, however, is the one the Rust
sources establish: the bind groups give the kernel a single read-write
storage buffer (see `instanceComputeBindGroup` / `clothComputeBindGroup`),
so a dispatch is modelled as an in-place update of that one buffer, one
vertex at a time in an arbitrary schedule order. -/

/-- Vertex state as the specification's kernel sees it (spec section 3):
position, velocity, mass, fixed flag. -/
structure KVertex where
  position : V3
  velocity : V3
  mass : Frac
  fixed : Bool
deriving DecidableEq, Repr

/-- Modelled from the spec (section 3): the Simulation Parameters record the
kernel consumes - gravity, vertex damping, per-class stiffness, rest length
and max length (structural, shear, bending), sphere center, radius and
collision damping, time step, and the grid dimensions used to resolve
neighbors. -/
structure KParams where
  rows : Nat
  cols : Nat
  gravity : V3
  damping : Frac
  kStructural : Frac
  kShear : Frac
  kBending : Frac
  restStructural : Frac
  restShear : Frac
  restBending : Frac
  maxStructural : Frac
  maxShear : Frac
  maxBending : Frac
  sphereCenter : V3
  sphereRadius : Frac
  sphereDamping : Frac
  dt : Frac
deriving DecidableEq, Repr

/-- Structural neighbor offsets (spec section 3): direct lattice neighbors. -/
def offsStructural : List (Int × Int) := [(-1, 0), (1, 0), (0, -1), (0, 1)]

/-- Shear neighbor offsets (spec section 3): diagonal neighbors. -/
def offsShear : List (Int × Int) := [(-1, -1), (-1, 1), (1, -1), (1, 1)]

/-- Bending neighbor offsets (spec section 3): skip-one neighbors. -/
def offsBending : List (Int × Int) := [(-2, 0), (2, 0), (0, -2), (0, 2)]

/-- Modelled from the spec (section 4.1): the valid neighbors of grid cell
`(r, c)` for an offset family, as linear indices, skipping offsets outside
`[0, rows) x [0, cols)`. -/
def neighborIdx (rows cols r c : Nat) (offs : List (Int × Int)) : List Nat :=
  offs.filterMap (fun d =>
    let rr : Int := (r : Int) + d.1
    let cc : Int := (c : Int) + d.2
    if 0 ≤ rr ∧ rr < (rows : Int) ∧ 0 ≤ cc ∧ cc < (cols : Int)
    then some (rr.toNat * cols + cc.toNat) else none)

/-- The position of buffer entry `j` (zero if out of bounds; never reached on
the in-bounds indices the neighbor enumeration produces for a buffer of
rows*cols vertices). -/
def posOf (b : List KVertex) (j : Nat) : V3 :=
  match b.get? j with
  | some w => w.position
  | none => V3.zero

/-- Modelled from the spec (section 4.3 step 2): the spring force one
neighbor contributes, `-k * (len - rest) * (d / len)` for `d` the offset from
the neighbor to the vertex, skipped when `len = 0`. -/
def springForce (k rest : Frac) (pv pn : V3) : V3 :=
  let d := pv.sub pn
  let len := d.norm
  if len = (0 : Frac) then V3.zero
  else V3.smul (((Frac.neg k).mul (len.sub rest)).div len) d

/-- Accumulated spring force of one spring class over its valid neighbors. -/
def classForce (b : List KVertex) (k rest : Frac) (pv : V3) (nbrs : List Nat) : V3 :=
  nbrs.foldl (fun acc j => acc.add (springForce k rest pv (posOf b j))) V3.zero

/-- Modelled from the spec (section 4.3 step 6): clamp the integrated
position against one spring class - for each neighbor in turn, if the
distance exceeds the class's max length, project the position back along the
spring direction so the distance equals the max exactly (per-neighbor,
last write wins). -/
def clampClass (b : List KVertex) (mx : Frac) (nbrs : List Nat) (p0 : V3) : V3 :=
  nbrs.foldl (fun p j =>
    let pn := posOf b j
    let d := p.sub pn
    let len := d.norm
    if mx.blt len then pn.add (V3.smul (mx.div len) d) else p) p0

/-- Modelled from the spec (section 4.3, steps 1-8): the per-vertex kernel.
A fixed vertex is returned unchanged (step 1).  Otherwise the three spring
classes accumulate forces over the valid neighbors (step 2), gravity
`mass * g` (step 3) and linear damping `-damping * v` (step 4) are added,
velocity and position integrate by symplectic Euler (step 5), the position is
clamped per class in structural, shear, bending order (step 6, the order the
spec's design notes give as the documented example), and sphere collision
projects the position to the surface and removes the inward velocity
component scaled by `1 - sphere_damping`, with the up-vector as the normal in
the degenerate center case (step 7).  All reads of neighbor state come from
the buffer `b` passed in - the single storage buffer the Rust bind groups
provide. -/
def kernelStep (p : KParams) (b : List KVertex) (i : Nat) : KVertex :=
  match b.get? i with
  | none => ⟨V3.zero, V3.zero, 0, false⟩
  | some v =>
    if v.fixed then v else
    let r := i / p.cols
    let c := i % p.cols
    let nS := neighborIdx p.rows p.cols r c offsStructural
    let nSh := neighborIdx p.rows p.cols r c offsShear
    let nB := neighborIdx p.rows p.cols r c offsBending
    let fS := classForce b p.kStructural p.restStructural v.position nS
    let fSh := classForce b p.kShear p.restShear v.position nSh
    let fB := classForce b p.kBending p.restBending v.position nB
    let f := ((fS.add fSh).add fB).add
      ((V3.smul v.mass p.gravity).add (V3.smul (Frac.neg p.damping) v.velocity))
    let vel1 := v.velocity.add (V3.smul (p.dt.div v.mass) f)
    let pos1 := v.position.add (V3.smul p.dt vel1)
    let pos2 := clampClass b p.maxBending nB
      (clampClass b p.maxShear nSh (clampClass b p.maxStructural nS pos1))
    let delta := pos2.sub p.sphereCenter
    let dn := delta.norm
    if dn.blt p.sphereRadius then
      let nrm := if dn = (0 : Frac) then (⟨0, 1, 0⟩ : V3)
                 else V3.smul ((1 : Frac).div dn) delta
      let pos3 := p.sphereCenter.add (V3.smul p.sphereRadius nrm)
      let vel2 := vel1.sub (V3.smul (((1 : Frac).sub p.sphereDamping).mul (vel1.dot nrm)) nrm)
      { v with position := pos3, velocity := vel2 }
    else
      { v with position := pos2, velocity := vel1 }

/-- One dispatch of the kernel over the single read-write storage buffer: the
per-vertex invocations run in the schedule order given, each one reading the
buffer as left by the previous ones and writing its own slot in place -
exactly the aliasing the Rust bind groups create (a GPU dispatch imposes no
order between invocations; the schedule argument makes that freedom
explicit). -/
def stepSeq (p : KParams) (order : List Nat) (b : List KVertex) : List KVertex :=
  order.foldl (fun acc i => acc.set i (kernelStep p acc i)) b

/-- `n` consecutive dispatches with the same parameters and schedule. -/
def stepN (p : KParams) (order : List Nat) : Nat → List KVertex → List KVertex
  | 0, b => b
  | n + 1, b => stepN p order n (stepSeq p order b)

/-- Concrete kernel parameters for the schedule-dependence counterexample of
claim C2: a 2x2 grid, unit structural stiffness and rest length, inactive
shear/bending classes, huge max lengths, no gravity or damping, a radius-zero
sphere far below the cloth, dt = 1. -/
def cexParams : KParams :=
  { rows := 2, cols := 2
    gravity := V3.zero
    damping := 0
    kStructural := 1, kShear := 0, kBending := 0
    restStructural := 1, restShear := 1, restBending := 1
    maxStructural := 1000, maxShear := 1000, maxBending := 1000
    sphereCenter := ⟨0, Frac.neg 100, 0⟩
    sphereRadius := 0
    sphereDamping := 0
    dt := 1 }

/-- Initial buffer for the counterexample: the four vertices on the y-axis at
heights 0, 2, 4, 6 (all displacements axis-aligned, so every norm the kernel
takes is exact), all free, unit mass, at rest. -/
def cexBuf : List KVertex :=
  [⟨⟨0, 0, 0⟩, V3.zero, 1, false⟩,
   ⟨⟨0, 2, 0⟩, V3.zero, 1, false⟩,
   ⟨⟨0, 4, 0⟩, V3.zero, 1, false⟩,
   ⟨⟨0, 6, 0⟩, V3.zero, 1, false⟩]

/-- The three per-class rest-length fields the specification requires but
neither Rust parameter record carries. -/
def restLengthFields : List ParamField :=
  [.structuralRestLength, .shearRestLength, .bendingRestLength]

/-- A single anchored vertex, used to exercise the fixed-vertex invariant at
a concrete input. -/
def cexFixedVertex : KVertex := ⟨⟨0, 0, 0⟩, V3.zero, 1, true⟩

/-- A one-vertex buffer whose only vertex is fixed. -/
def cexFixedBuf : List KVertex := [cexFixedVertex]

/-! ## List helper lemmas -/

/-- Length of a flatMap whose blocks all have the same length. -/
theorem flatLenConst {α β : Type} (l : List α) (f : α → List β) (m : Nat)
    (h : ∀ a ∈ l, (f a).length = m) : (l.flatMap f).length = l.length * m := by
  induction l with
  | nil => simp
  | cons a t ih =>
    simp only [List.flatMap_cons, List.length_append, List.length_cons]
    rw [h a (List.mem_cons_self a t), ih (fun x hx => h x (List.mem_cons_of_mem a hx))]
    ring

/-- The `k`-th block of a flatMap over `range n` with constant block length
`m` is the slice of length `m` starting at `m * k`. -/
theorem flatRangeSlice {β : Type} (n m : Nat) (f : Nat → List β) (h : ∀ i, (f i).length = m)
    (k : Nat) (hk : k < n) :
    (((List.range n).flatMap f).drop (m * k)).take m = f k := by
  induction n with
  | zero => omega
  | succ n ih =>
    rw [List.range_succ, List.flatMap_append]
    have hlen : ((List.range n).flatMap f).length = n * m := by
      rw [flatLenConst _ _ _ (fun a _ => h a), List.length_range]
    rcases Nat.lt_or_ge k n with h1 | h1
    · have hle : m * k ≤ ((List.range n).flatMap f).length := by
        rw [hlen]
        calc m * k ≤ m * n := Nat.mul_le_mul_left m (Nat.le_of_lt h1)
        _ = n * m := Nat.mul_comm m n
      rw [List.drop_append_of_le_length hle]
      have hsucc : m * (k + 1) ≤ n * m := by
        calc m * (k + 1) ≤ m * n := Nat.mul_le_mul_left m h1
        _ = n * m := Nat.mul_comm m n
      have hle2 : m ≤ (((List.range n).flatMap f).drop (m * k)).length := by
        rw [List.length_drop, hlen]
        have : m * (k + 1) = m * k + m := by ring
        omega
      rw [List.take_append_of_le_length hle2, ih h1]
    · have hkn : k = n := by omega
      subst hkn
      have hdrop : m * k = ((List.range k).flatMap f).length := by rw [hlen]; ring
      rw [hdrop, List.drop_left]
      simp only [List.flatMap_cons, List.flatMap_nil, List.append_nil]
      exact List.take_of_length_le (Nat.le_of_eq (h k))

/-- Taking `t` elements after dropping `k` only depends on the first `M`
elements when `k + t ≤ M`. -/
theorem takeDropOfTake {β : Type} (A : List β) (M k t : Nat) (hkt : k + t ≤ M) :
    ((A.take M).drop k).take t = (A.drop k).take t := by
  rw [List.drop_take M k A, List.take_take]
  have : min t (M - k) = t := by omega
  rw [this]

/-- A fixed vertex is returned unchanged by the kernel (spec section 4.3
step 1 short-circuits before any force, clamp or collision computation). -/
theorem kernelStepFixed (p : KParams) (b : List KVertex) (i : Nat) (v : KVertex)
    (h : b.get? i = some v) (hf : v.fixed = true) : kernelStep p b i = v := by
  have h2 : b[i]? = some v := by rw [← List.get?_eq_getElem?]; exact h
  simp [kernelStep, h2, hf]

/-- Writing any invocation's result into the buffer leaves a fixed vertex's
slot unchanged: other invocations write only their own slot, and the fixed
vertex's own invocation writes its value back verbatim. -/
theorem setPreservesFixed (p : KParams) (b : List KVertex) (j i : Nat) (v : KVertex)
    (h : b.get? i = some v) (hf : v.fixed = true) :
    (b.set j (kernelStep p b j)).get? i = some v := by
  by_cases hij : j = i
  · subst hij
    rw [kernelStepFixed p b j v h hf]
    have hi : j < b.length := by
      rw [List.get?_eq_getElem?] at h
      exact (List.getElem?_eq_some.mp h).1
    rw [List.get?_eq_getElem?]
    simp [List.getElem?_set_self, hi]
  · rw [List.get?_eq_getElem?, List.getElem?_set_ne hij, ← List.get?_eq_getElem?]
    exact h

/-- One full dispatch, in any schedule order, leaves every fixed vertex
unchanged. -/
theorem stepSeqPreservesFixed (p : KParams) (order : List Nat) :
    ∀ (b : List KVertex) (i : Nat) (v : KVertex),
      b.get? i = some v → v.fixed = true → (stepSeq p order b).get? i = some v := by
  induction order with
  | nil => intro b i v h _; exact h
  | cons o t ih =>
    intro b i v h hf
    have hstep : stepSeq p (o :: t) b = stepSeq p t (b.set o (kernelStep p b o)) := rfl
    rw [hstep]
    exact ih _ i v (setPreservesFixed p b o i v h hf) hf

/-- Claim C1: the spec requires kernel reads of vertex state to come from a
previous-generation buffer and writes to go to a distinct next-generation
buffer with no aliasing.  The code violates this: in both apps the compute
bind group contains exactly one vertex-state buffer, bound as read-write
storage, so the buffer the kernel reads is the very buffer it writes; and
both per-frame updates overwrite that same buffer with the kernel's output
computed from it (the separate render vertex buffer only receives a copy
after the dispatch, it is not a kernel input). -/
theorem claim1_single_buffer_aliasing :
    (instanceComputeBindGroup.filter (fun e => decide (e.buffer ∈ vertexStateBuffers))) =
      [⟨0, BufId.fabricStorage, BindTy.storageRW⟩] ∧
    (clothComputeBindGroup.filter (fun e => decide (e.buffer ∈ vertexStateBuffers))) =
      [⟨0, BufId.clothVertexStorage, BindTy.storageRW⟩] ∧
    (∀ pass dt st, (instanceUpdate pass dt st).fabricStorage =
      pass st.sphere st.simParams st.fabricStorage) ∧
    (∀ pass dt st, (clothUpdateCloth pass dt st).1.vertexStorage =
      pass (st.env.updateDeltaTime dt) st.vertexStorage) :=
  ⟨by decide, by decide, fun _ _ _ => rfl, fun _ _ _ => rfl⟩

/-- Claim C2: the spec requires `step` to produce bit-for-bit identical
output regardless of the scheduling order of the per-vertex invocations.
Because the code gives the kernel a single read-write buffer (claim C1's
aliasing), the output depends on the schedule: on a 2x2 grid of collinear
vertices at heights 0, 2, 4, 6 with unit structural stiffness and rest
length, the schedule 0,1,2,3 produces heights 4, 6, 5, 6 while the schedule
3,2,1,0 produces heights 0, 1, 0, 2 - the two runs differ although
parameters, dt and the initial buffer are identical. -/
theorem claim2_schedule_dependence :
    (stepSeq cexParams [0, 1, 2, 3] cexBuf).map (fun v => v.position.y) =
      [⟨4, 1⟩, ⟨6, 1⟩, ⟨5, 1⟩, ⟨6, 1⟩] ∧
    (stepSeq cexParams [3, 2, 1, 0] cexBuf).map (fun v => v.position.y) =
      [⟨0, 1⟩, ⟨1, 1⟩, ⟨0, 1⟩, ⟨2, 1⟩] ∧
    stepSeq cexParams [0, 1, 2, 3] cexBuf ≠ stepSeq cexParams [3, 2, 1, 0] cexBuf :=
  ⟨by decide, by decide, by decide⟩

/-- Claim C3: every vertex whose fixed flag is true keeps its position and
velocity (indeed its entire state) across any number of simulation steps,
for any parameters and any schedule order of the in-place dispatch. -/
theorem claim3_fixed_vertex_invariant (p : KParams) (order : List Nat) (n i : Nat)
    (b : List KVertex) (v : KVertex) (h : b.get? i = some v) (hf : v.fixed = true) :
    (stepN p order n b).get? i = some v := by
  induction n generalizing b with
  | zero => exact h
  | succ n ih => exact ih _ (stepSeqPreservesFixed p order b i v h hf)

/-- Witness for claim C3 at a concrete input: a one-vertex buffer holding a
fixed vertex, two dispatches. -/
theorem claim3_fixed_vertex_invariant_witness :
    cexFixedBuf.get? 0 = some cexFixedVertex ∧ cexFixedVertex.fixed = true ∧
    (stepN cexParams [0, 1] 2 cexFixedBuf).get? 0 = some cexFixedVertex :=
  ⟨by decide, by decide,
   claim3_fixed_vertex_invariant cexParams [0, 1] 2 0 cexFixedBuf cexFixedVertex
     (by decide) (by decide)⟩

/-- Counterexample for claim C4: at the concrete invalid configuration
rows = 1, cols = 1, mass = -1, radius = -1 the code's construction succeeds
(it has no error path at all), while the specification's validation rejects
it - so invalid configurations are not rejected at construction time. -/
theorem claim4_no_validation_cex :
    exceptOk (instanceNewE ⟨1, 1, Frac.neg 1, Frac.neg 1⟩) = true ∧
    exceptOk (specValidate ⟨1, 1, Frac.neg 1, Frac.neg 1⟩) = false :=
  ⟨rfl, by decide⟩

/-- Claim C4 amended: construction never rejects any configuration - it
returns no configuration error even for non-positive mass, negative radius or
rows/cols below 2 (the constructors contain no validation and no error path);
the hard-coded configurations both apps actually construct with do satisfy
the spec's validity constraints, so the shipped binaries never run the kernel
with invalid parameters. -/
theorem claim4_construction_never_rejects :
    (∀ cfg, exceptOk (instanceNewE cfg) = true) ∧
    exceptOk (specValidate instanceConfig) = true ∧
    exceptOk (specValidate clothConfig) = true :=
  ⟨fun _ => rfl, by decide, by decide⟩

/-- Counterexample for claim C5: InstanceApp's Simulation Parameters record
(SimParams) has no time-step field at all, and the compute bind group hands
the kernel only the fabric storage buffer, the sphere uniform and the
SimParams uniform - so no `step(dt)` of InstanceApp can update a time-step
field, and the kernel never receives the dt passed to update. -/
theorem claim5_no_time_step_field_cex :
    ParamField.timeStep ∉ simParamsFields ∧
    (instanceComputeBindGroup.map (fun e => e.buffer)) =
      [BufId.fabricStorage, BufId.sphereUniform, BufId.simParamUniform] :=
  ⟨by decide, by decide⟩

/-- Claim C5 amended: ClothApp's update does stage dt as claimed - it writes
dt into EnvironmentData's delta-time slot first, and the kernel of that very
dispatch is bound to the updated environment; InstanceApp's update, by
contrast, ignores its delta-time argument entirely (two calls with different
dt from the same state are indistinguishable) and leaves SimParams
untouched. -/
theorem claim5_dt_staging_amended :
    (∀ pass d1 d2 st, instanceUpdate pass d1 st = instanceUpdate pass d2 st) ∧
    (∀ pass dt st, (instanceUpdate pass dt st).simParams = st.simParams) ∧
    (∀ pass dt st, ((clothUpdateCloth pass dt st).2).deltaTime = dt) ∧
    (∀ pass dt st, (clothUpdateCloth pass dt st).1.env = st.env.updateDeltaTime dt) :=
  ⟨fun _ _ _ _ => rfl, fun _ _ _ => rfl, fun _ _ _ => rfl, fun _ _ _ => rfl⟩

/-- Counterexample for claim C6: neither parameter record carries the three
per-class rest lengths the claim requires (EnvironmentData has none of them,
and SimParams also lacks gravity and the time step, among others), so neither
record contains all the fields the claim lists. -/
theorem claim6_rest_length_missing_cex :
    ParamField.structuralRestLength ∉ environmentDataFields ∧
    ParamField.shearRestLength ∉ environmentDataFields ∧
    ParamField.bendingRestLength ∉ environmentDataFields ∧
    ParamField.gravity ∉ simParamsFields ∧
    ParamField.timeStep ∉ simParamsFields ∧
    (specRequiredFields.all (fun f => environmentDataFields.contains f)) = false ∧
    (specRequiredFields.all (fun f => simParamsFields.contains f)) = false := by
  refine ⟨by decide, by decide, by decide, by decide, by decide, by decide, by decide⟩

/-- Claim C6 amended: ClothApp's EnvironmentData carries every field the spec
lists except the three per-class rest lengths (plus the grid dimensions on
top), and its delta-time slot is the mutable time-step field; InstanceApp's
SimParams carries only the grid dimensions, one all-class spring stiffness
and one all-class rest length.  Whether the (missing) kernel sources read
each field cannot be settled from the repository. -/
theorem claim6_param_fields_amended :
    ((specRequiredFields.filter (fun f => !restLengthFields.contains f)).all
      (fun f => environmentDataFields.contains f)) = true ∧
    ((restLengthFields.all (fun f => !environmentDataFields.contains f)) = true) ∧
    ((environmentDataFields.all (fun f =>
      specRequiredFields.contains f || f == ParamField.gridRows || f == ParamField.gridCols)) = true) ∧
    ((simParamsFields.all (fun f =>
      f == ParamField.gridRows || f == ParamField.gridCols ||
      f == ParamField.springStiffness || f == ParamField.restLength)) = true) ∧
    (EnvironmentData.new ⟨1, 2, 3⟩ 4 5).deltaTime = 5 ∧
    (∀ e dt, (EnvironmentData.updateDeltaTime e dt).deltaTime = dt) :=
  ⟨by decide, by decide, by decide, by decide, by decide, fun _ _ => rfl⟩

/-- Claim C7: for all grids with rows, cols at least 2, the index builder is a
pure function of (rows, cols) producing exactly 6*(rows-1)*(cols-1) indices,
with each cell (r, c) contributing the two triangles
(topLeft, bottomLeft, bottomRight) then (topLeft, bottomRight, topRight) at
offset 6*(r*(cols-1)+c) - the scheme both apps build once at construction
(the render path recomputes only the count 6*(rows-1)*(cols-1), matching the
list's length). -/
theorem claim7_grid_indices (rows cols r c : Nat) (_h2 : 2 ≤ rows) (_h3 : 2 ≤ cols)
    (hr : r < rows - 1) (hc : c < cols - 1) :
    (gridIndices rows cols).length = 6 * (rows - 1) * (cols - 1) ∧
    ((gridIndices rows cols).drop (6 * (r * (cols - 1) + c))).take 6 =
      [r * cols + c, r * cols + c + cols, r * cols + c + cols + 1,
       r * cols + c, r * cols + c + cols + 1, r * cols + c + 1] := by
  have hinner : ∀ i, ((List.range (cols - 1)).flatMap (fun col => cellIndices cols i col)).length
      = (cols - 1) * 6 := by
    intro i
    rw [flatLenConst (List.range (cols - 1)) (fun col => cellIndices cols i col) 6
      (fun a _ => rfl), List.length_range]
  constructor
  · rw [gridIndices, flatLenConst _ _ ((cols - 1) * 6) (fun a _ => hinner a), List.length_range]
    ring
  · have houter := flatRangeSlice (rows - 1) ((cols - 1) * 6)
      (fun i => (List.range (cols - 1)).flatMap (fun col => cellIndices cols i col)) hinner r hr
    have hidx : 6 * (r * (cols - 1) + c) = (cols - 1) * 6 * r + 6 * c := by ring
    rw [gridIndices, hidx, ← List.drop_drop]
    have hglue := takeDropOfTake
      (((List.range (rows - 1)).flatMap
        (fun row => (List.range (cols - 1)).flatMap (fun col => cellIndices cols row col))).drop
          ((cols - 1) * 6 * r))
      ((cols - 1) * 6) (6 * c) 6 (by omega)
    rw [← hglue, houter]
    have hcell := flatRangeSlice (cols - 1) 6 (fun col => cellIndices cols r col)
      (fun _ => rfl) c hc
    rw [hcell]
    simp [cellIndices]

/-- Witness for claim C7 at the concrete grid 3x3, cell (0, 1). -/
theorem claim7_grid_indices_witness :
    (gridIndices 3 3).length = 6 * (3 - 1) * (3 - 1) ∧
    ((gridIndices 3 3).drop (6 * (0 * (3 - 1) + 1))).take 6 =
      [0 * 3 + 1, 0 * 3 + 1 + 3, 0 * 3 + 1 + 3 + 1,
       0 * 3 + 1, 0 * 3 + 1 + 3 + 1, 0 * 3 + 1 + 1] :=
  claim7_grid_indices 3 3 0 1 (by decide) (by decide) (by decide) (by decide)

/-- Claim C8: grid construction is deterministic (a pure function in this
embedding).  InstanceApp's builder produces exactly rows*cols vertices, the
vertex at linear index r*cols+c being the one built for (row r, col c), with
constant height y = 2 (a flat plane) and zero velocity.  ClothApp's builder
produces 61*61 vertices (61 samples per axis from its f32 while-loops), all
at height y = 0 and zero velocity. -/
theorem claim8_grid_construction (rows cols : Nat) (mass side : Frac) (r c : Nat)
    (hr : r < rows) (hc : c < cols) :
    (fabricVertices rows cols mass side).length = rows * cols ∧
    (fabricVertices rows cols mass side).get? (r * cols + c) =
      some (mkFabricVertex rows cols mass side r c) ∧
    (mkFabricVertex rows cols mass side r c).position.y = 2 ∧
    (mkFabricVertex rows cols mass side r c).velocity = V3.zero ∧
    clothVertices.length = 61 * 61 ∧
    (clothVertices.all (fun v =>
      decide (v.position.y = (0 : Frac)) && decide (v.velocity = V3.zero))) = true := by
  refine ⟨?_, ?_, rfl, rfl, ?_, ?_⟩
  · rw [fabricVertices, flatLenConst (List.range rows)
      (fun row => (List.range cols).map (mkFabricVertex rows cols mass side row)) cols
      (fun a _ => by rw [List.length_map, List.length_range]), List.length_range]
  · have hblock := flatRangeSlice rows cols
      (fun row => (List.range cols).map (mkFabricVertex rows cols mass side row))
      (fun i => by rw [List.length_map, List.length_range]) r hr
    rw [List.get?_eq_getElem?]
    have h1 : (fabricVertices rows cols mass side)[r * cols + c]? =
        ((fabricVertices rows cols mass side).drop (cols * r))[c]? := by
      rw [List.getElem?_drop]
      congr 1
      ring
    have h2 : ((fabricVertices rows cols mass side).drop (cols * r))[c]? =
        (((fabricVertices rows cols mass side).drop (cols * r)).take cols)[c]? := by
      rw [List.getElem?_take]
      simp [hc]
    rw [h1, h2, fabricVertices, hblock, List.getElem?_map, List.getElem?_range hc]
    rfl
  · have hx : clothXs.length = 61 := by decide
    have hz : clothZs.length = 61 := by decide
    rw [clothVertices, List.length_map, clothPositions,
      flatLenConst clothZs
        (fun z => clothXs.map (fun x => (⟨f32sub x clothMid, 0, f32sub z clothMid⟩ : V3)))
        clothXs.length (fun a _ => List.length_map _ _), hz, hx]
  · rw [List.all_eq_true]
    intro v hv
    simp only [clothVertices, List.mem_map] at hv
    obtain ⟨p, hp, rfl⟩ := hv
    simp only [clothPositions, List.mem_flatMap, List.mem_map] at hp
    obtain ⟨z, hz, x, hx, rfl⟩ := hp
    simp

/-- Witness for claim C8 at the concrete input InstanceApp actually uses
(a 2x2 grid, mass 1, side 4), vertex (1, 1). -/
theorem claim8_grid_construction_witness :
    (fabricVertices 2 2 1 4).length = 2 * 2 ∧
    (fabricVertices 2 2 1 4).get? (1 * 2 + 1) = some (mkFabricVertex 2 2 1 4 1 1) ∧
    (mkFabricVertex 2 2 1 4 1 1).position.y = 2 ∧
    (mkFabricVertex 2 2 1 4 1 1).velocity = V3.zero ∧
    clothVertices.length = 61 * 61 ∧
    (clothVertices.all (fun v =>
      decide (v.position.y = (0 : Frac)) && decide (v.velocity = V3.zero))) = true :=
  claim8_grid_construction 2 2 1 4 1 1 (by decide) (by decide)

/-- Claim C9: the collision sphere's center and radius are set at
construction and never written afterwards - over any sequence of update
calls, with any kernel, the sphere data and the sphere's render vertices are
unchanged; and the sphere buffer is bound to the compute kernel as a uniform
(read-only), so the kernel cannot write it either.  The kernel's output
replaces only the fabric storage buffer, of which the sphere is not part. -/
theorem claim9_sphere_static (pass : SphereData → SimParams → List IVertex → List IVertex)
    (dts : List Frac) (st : InstState) :
    ((dts.foldl (fun s dt => instanceUpdate pass dt s) st).sphere = st.sphere ∧
     (dts.foldl (fun s dt => instanceUpdate pass dt s) st).sphereVertices = st.sphereVertices) ∧
    (instanceComputeBindGroup.filter (fun e => decide (e.buffer = BufId.sphereUniform))).map
      (fun e => e.ty) = [BindTy.uniform] := by
  constructor
  · induction dts generalizing st with
    | nil => exact ⟨rfl, rfl⟩
    | cons d t ih =>
      simp only [List.foldl_cons]
      exact ⟨(ih (instanceUpdate pass d st)).1.trans rfl,
             (ih (instanceUpdate pass d st)).2.trans rfl⟩
  · decide

/-- Every index the builder emits is below rows*cols (the largest is the
bottom-right corner of the last cell, rows*cols - 1). -/
theorem gridIndicesMemLt (rows cols i : Nat) (hi : i ∈ gridIndices rows cols) :
    i < rows * cols := by
  simp only [gridIndices, List.mem_flatMap, List.mem_range] at hi
  obtain ⟨r, hr, c, hc, hi⟩ := hi
  have h1 : r + 2 ≤ rows := by omega
  have h2 : c + 2 ≤ cols := by omega
  have key : r * cols + c + cols + 1 < rows * cols := by
    have e1 : (r + 2) * cols ≤ rows * cols := Nat.mul_le_mul_right cols h1
    have e2 : (r + 2) * cols = r * cols + 2 * cols := by ring
    rw [e2] at e1
    have e3 : 2 * cols = cols + cols := by ring
    linarith
  simp only [cellIndices, List.mem_cons, List.not_mem_nil, or_false] at hi
  rcases hi with rfl | rfl | rfl | rfl | rfl | rfl
  all_goals linarith

/-- Counterexample for claim C10: the while-loop position generation of
ClothApp::new produces 3721 vertices (61 per axis - the accumulated f32
rounding errors let the loop run one extra iteration past the nominal 60),
while the width*height the index builder uses is 60*60 = 3600, so the two
counts are not equal as the claim states. -/
theorem claim10_vertex_count_mismatch_cex :
    clothPositions.length = 3721 ∧ clothWidth * clothHeight = 3600 ∧
    clothPositions.length ≠ clothWidth * clothHeight := by
  have hw : clothWidth = 60 := by decide
  have hh : clothHeight = 60 := by decide
  have hx : clothXs.length = 61 := by decide
  have hz : clothZs.length = 61 := by decide
  have hlen : clothPositions.length = 3721 := by
    rw [clothPositions,
      flatLenConst clothZs
        (fun z => clothXs.map (fun x => (⟨f32sub x clothMid, 0, f32sub z clothMid⟩ : V3)))
        clothXs.length (fun a _ => List.length_map _ _), hz, hx]
  refine ⟨hlen, by rw [hw, hh], by rw [hlen, hw, hh]; omega⟩

/-- Claim C10 amended: the vertex count (3721) exceeds, rather than equals,
the 60*60 the index builder works from; the in-bounds conclusion still holds
- every index the builder emits (all below 3600) is strictly less than the
number of generated vertices. -/
theorem claim10_indices_in_bounds (i : Nat) (hi : i ∈ gridIndices clothHeight clothWidth) :
    i < clothPositions.length ∧ clothPositions.length = 3721 ∧
    clothWidth = 60 ∧ clothHeight = 60 := by
  have hw : clothWidth = 60 := by decide
  have hh : clothHeight = 60 := by decide
  have hx : clothXs.length = 61 := by decide
  have hz : clothZs.length = 61 := by decide
  have hlen : clothPositions.length = 3721 := by
    rw [clothPositions,
      flatLenConst clothZs
        (fun z => clothXs.map (fun x => (⟨f32sub x clothMid, 0, f32sub z clothMid⟩ : V3)))
        clothXs.length (fun a _ => List.length_map _ _), hz, hx]
  have hb := gridIndicesMemLt clothHeight clothWidth i hi
  rw [hw, hh] at hb
  refine ⟨by rw [hlen]; omega, hlen, hw, hh⟩

/-- Witness for the amended claim C10 at the concrete index 0, the first
index the builder emits. -/
theorem claim10_indices_in_bounds_witness :
    0 < clothPositions.length ∧ clothPositions.length = 3721 ∧
    clothWidth = 60 ∧ clothHeight = 60 :=
  claim10_indices_in_bounds 0 (by decide)
